import Mathlib

/-!
Shallow embedding of the llana request pipeline:
* `Llana.auth` embeds `Authentication.auth` (src/src/helpers/Authentication.ts).
* `Llana.updateById` embeds `PutController.updateById` (src/unnamed/part_000).

External collaborators (config service, schema helper, query engine, JWT
verifier, dotted-path resolution from `utils/Find`) are modelled as oracles
carried by an environment record; the control flow of the two embedded
functions follows the TypeScript source line by line.  JavaScript values that
flow through truthiness checks and strict (in)equality are modelled by the
small dynamic-value type `JSVal`.
-/

namespace Llana

/-- A JavaScript value as used by the embedded code: `undefined`, a boolean,
or a string.  `JSVal.undef` stands for both `undefined` and `null`. -/
inductive JSVal : Type
  | undef
  | bool (b : Bool)
  | str (s : String)
  deriving DecidableEq, Repr

/-- JavaScript truthiness: `undefined`, `false` and `""` are falsy. -/
def jsTruthy : JSVal → Bool
  | .undef => false
  | .bool b => b
  | .str s => s ≠ ""

/-- JavaScript `!v`. -/
def jsNot (v : JSVal) : JSVal := .bool (!jsTruthy v)

/-- JavaScript `a && b`: returns `a` when `a` is falsy, otherwise `b`. -/
def jsAnd (a b : JSVal) : JSVal := if jsTruthy a then b else a

/-- JavaScript strict equality `===` on the modelled value space. -/
def jsStrictEq : JSVal → JSVal → Bool
  | .undef, .undef => true
  | .bool a, .bool b => a == b
  | .str a, .str b => a == b
  | _, _ => false

/-- Truthiness of an optional value (configuration fields that may be
absent): `none` plays the role of an absent / `undefined` field. -/
def optTruthy : Option JSVal → Bool
  | none => false
  | some v => jsTruthy v

/-- Character-list prefix test. -/
def listPrefix : List Char → List Char → Bool
  | [], _ => true
  | _ :: _, [] => false
  | a :: as, b :: bs => a == b && listPrefix as bs

/-- Character-list substring containment (`sub` occurs inside the second
list). -/
def containsSub (sub : List Char) : List Char → Bool
  | [] => listPrefix sub []
  | c :: rest => listPrefix sub (c :: rest) || containsSub sub rest

/-- JavaScript `String.prototype.includes`: substring containment. -/
def strIncludes (s sub : String) : Bool :=
  containsSub sub.data s.data

/-- `WhereOperator` from `types/database.types` (the two members the embedded
code uses: `equals` and `null`). -/
inductive WhereOperator : Type
  | equals
  | null
  deriving DecidableEq, Repr

/-- A where-clause `{column, operator, value}` (`DatabaseWhere`).  The
`null` operator carries no value; absence is `JSVal.undef`. -/
structure DatabaseWhere : Type where
  column : String
  operator : WhereOperator
  value : JSVal := .undef
  deriving DecidableEq, Repr

/-- `AuthType` from `types/auth.types`. -/
inductive AuthType : Type
  | APIKEY
  | JWT
  deriving DecidableEq, Repr

/-- `AuthLocation` from `types/auth.types`. -/
inductive AuthLocation : Type
  | HEADER
  | QUERY
  | BODY
  deriving DecidableEq, Repr

/-- The `table` sub-object of an auth configuration entry: lookup table name,
optional identity column, and (for API keys) the matching column
(`AuthAPIKey`). -/
structure AuthTableConfig : Type where
  name : String
  identity_column : Option String := none
  column : Option String := none
  deriving DecidableEq, Repr

/-- One entry of the ordered authentication configuration (`Auth` from
`types/auth.types`): type tag, and for API keys a parameter name and a
location. -/
structure Auth : Type where
  type : Option AuthType
  name : Option String := none
  location : Option AuthLocation := none
  table : AuthTableConfig
  deriving DecidableEq, Repr

/-- A row of the `LLANA_AUTH_TABLE` routing table as read by the embedded
code: the code only ever reads the `table` and `exclude` fields of a row. -/
structure AuthRuleRow : Type where
  table : String
  exclude : Bool
  deriving DecidableEq, Repr

/-- `AuthRestrictionsResponse`: the running / final result of `auth`. -/
structure AuthRestrictionsResponse : Type where
  valid : Bool
  message : Option String := none
  user_identifier : Option JSVal := none
  deriving DecidableEq, Repr

/-- The request as read by `auth`: URL and the three API-key locations.
`headers`, `query` and `body` return the JS value stored under a name
(`JSVal.undef` when absent). -/
structure AuthReq : Type where
  originalUrl : String
  headers : String → JSVal
  query : String → JSVal
  body : String → JSVal

/-- `req.headers['authorization']?.split(' ')[1]`. -/
def bearerToken (req : AuthReq) : Option String :=
  match req.headers "authorization" with
  | .str s => (s.splitOn " ").get? 1
  | _ => none

/-- Result of `schema.validateFields`: validity flag, message, and the
resolved field / relation lists to merge into the lookup options. -/
structure FieldsValidation : Type where
  valid : Bool
  message : String := ""
  fields : List String := []
  relations : List String := []

/-- A fetched database row, as consumed by the API-key branch: `get c`
models the direct property access `result[c]`, and `dot c` models the
dotted-path resolution `findDotNotation(result, c)` from `utils/Find`
(repository code outside `src/`, modelled as an oracle of the row). -/
structure DbRecord : Type where
  get : String → JSVal
  dot : String → JSVal

/-- The schema shape `auth` uses: only the primary key column. -/
structure AuthSchema : Type where
  primary_key : String
  deriving DecidableEq, Repr

/-- `DatabaseFindOneOptions` as built by the API-key branch (`wher` models
the reserved word `where`). -/
structure FindOptions : Type where
  fields : List String
  wher : List DatabaseWhere
  relations : List String
  deriving DecidableEq, Repr

/-- The observable side effects of one `auth` invocation, in order. -/
inductive AuthEffect : Type
  | findManyRules (t : AuthType)
  | getTableSchema (name : String)
  | find (fields : List String) (wher : List DatabaseWhere)
  | jwtVerify (token : String)
  deriving DecidableEq, Repr

/-- The environment of `auth`: configuration reads and the external
collaborators, each as a pure oracle. -/
structure AuthEnv : Type where
  /-- `configService.get('auth')`. -/
  authentications : Option (List Auth)
  /-- `query.perform(FIND_MANY, auth_schema, where auth = type)`: the rows of
  `LLANA_AUTH_TABLE` for a rule type. -/
  authRules : AuthType → List AuthRuleRow
  /-- `schema.getSchema(name)`; `Except.error` models a thrown error. -/
  getSchema : String → Except String AuthSchema
  /-- `Env.IsTest()`. -/
  isTest : Bool
  /-- `schema.validateFields(schema, column)`. -/
  validateFields : String → FieldsValidation
  /-- `configService.get('database.deletes.soft')`. -/
  softDelete : Option String
  /-- `query.perform(FIND, options)`; `none` models a falsy (absent) result. -/
  find : FindOptions → Option DbRecord
  /-- `jwtService.verifyAsync`: `some sub` on success (the `sub` claim of the
  verified payload), `none` when verification throws. -/
  jwtVerify : String → Option String

/-- Outcome of processing one configuration entry inside the `for` loop:
`skip` is a `continue` that leaves the running result unchanged, `next r`
is a `continue` (or `break`) after assigning `auth_passed = r`, and
`halt r` is a `return r` out of the whole function. -/
inductive StepOut : Type
  | skip
  | next (r : AuthRestrictionsResponse)
  | halt (r : AuthRestrictionsResponse)
  deriving DecidableEq, Repr

/-- The route-scoping computation of one rule (lines 57-90 of
`Authentication.ts`): `check_required` starts `true`; the `excludes` pass
clears it when the URL contains an excluded table; the `includes` pass sets
it back — the source builds **both** lists with
`rules.data.filter(rule => rule.exclude)`. -/
def checkRequired (env : AuthEnv) (req : AuthReq) (t : AuthType) : Bool :=
  let rules := env.authRules t
  let excludes := rules.filter (fun r => r.exclude)
  let includes := rules.filter (fun r => r.exclude)
  let c := true
  let c := if excludes.any (fun e => strIncludes req.originalUrl e.table) then false else c
  let c := if includes.any (fun i => strIncludes req.originalUrl i.table) then true else c
  c

/-- The location-specific "API key ... required" message. -/
def missingKeyMsg (loc : AuthLocation) (name : String) : String :=
  match loc with
  | .HEADER => "API key header " ++ name ++ " required"
  | .QUERY => "API key query " ++ name ++ " required"
  | .BODY => "API key body " ++ name ++ " required"

/-- Extraction of the API key from its configured location. -/
def extractApiKey (req : AuthReq) (loc : AuthLocation) (name : String) : JSVal :=
  match loc with
  | .HEADER => req.headers name
  | .QUERY => req.query name
  | .BODY => req.body name

/-- The identity column of a rule: the configured `identity_column` when
present, the lookup schema's primary key otherwise. -/
def identityColumn (a : Auth) (schema : AuthSchema) : String :=
  match a.table.identity_column with
  | some c => c
  | none => schema.primary_key

/-- The `DatabaseFindOneOptions` built for the API-key lookup: the seed
fields/where, the merged `validateFields` output (deduplicated pushes), and
the soft-delete `null` clause when configured. -/
def apiKeyFindOptions (env : AuthEnv) (a : Auth) (identity_column col : String)
    (req_api_key : JSVal) : FindOptions :=
  let fields0 := [a.table.name ++ "." ++ identity_column]
  let wher0 : List DatabaseWhere := [⟨col, .equals, req_api_key⟩]
  let v := env.validateFields col
  let fields := v.fields.foldl (fun acc f => if acc.contains f then acc else acc ++ [f]) fields0
  let relations := v.relations.foldl
    (fun acc r => if acc.contains r then acc else acc ++ [r]) ([] : List String)
  let wher := match env.softDelete with
    | some sc => wher0 ++ [⟨sc, .null, .undef⟩]
    | none => wher0
  ⟨fields, wher, relations⟩

/-- The body of the `for` loop of `auth` for one configuration entry `a`
(given that the running result is not yet valid), together with the side
effects it performs.  Mirrors lines 49-312 of `Authentication.ts`; the
`validateFields` failure there assigns `auth_passed` without `continue`, so
that assignment is dead (overwritten by the `return` or the final
assignment) and does not surface in the step outcome. -/
def authStep (env : AuthEnv) (req : AuthReq) (a : Auth) : StepOut × List AuthEffect :=
  match a.type with
  | none =>
    (.next { valid := false,
             message := some "System configuration error: Restriction type required" }, [])
  | some t =>
    let effs0 := [AuthEffect.findManyRules t]
    if !checkRequired env req t then (.skip, effs0)
    else
      match env.getSchema a.table.name with
      | .error _ =>
        (.halt { valid := false,
                 message := some ("No Schema Found For Table " ++ a.table.name) }, effs0)
      | .ok schema =>
        let effs := effs0 ++ [AuthEffect.getTableSchema a.table.name]
        let identity_column := identityColumn a schema
        match t with
        | .APIKEY =>
          match a.name with
          | none =>
            (.next { valid := false,
                     message := some "System configuration error: API key name required" }, effs)
          | some nm =>
            match a.location with
            | none =>
              (.next { valid := false,
                       message := some "System configuration error: API key location required" },
               effs)
            | some loc =>
              let req_api_key := extractApiKey req loc nm
              if !jsTruthy req_api_key then
                (.next { valid := false, message := some (missingKeyMsg loc nm) }, effs)
              else if !jsTruthy req_api_key then
                (.next { valid := false, message := some "API key required" }, effs)
              else if env.isTest then
                (.next { valid := true }, effs)
              else if a.table.name = "" then
                (.next { valid := false,
                         message :=
                           some "System configuration error: API Key lookup table not found" },
                 effs)
              else
                match a.table.column with
                | none =>
                  (.next { valid := false,
                           message :=
                             some "System configuration error: API Key lookup column not found" },
                   effs)
                | some col =>
                  let options := apiKeyFindOptions env a identity_column col req_api_key
                  let result := env.find options
                  let effs := effs ++ [AuthEffect.find options.fields options.wher]
                  match result with
                  | none => (.halt { valid := false, message := some "Unauthorized" }, effs)
                  | some r =>
                    -- `(!result[col] && findDotNotation(result, col)) !== req_api_key`
                    if !jsStrictEq (jsAnd (jsNot (r.get col)) (r.dot col)) req_api_key then
                      (.halt { valid := false, message := some "Unauthorized" }, effs)
                    else if !jsTruthy (r.get identity_column) then
                      (.halt { valid := false,
                               message :=
                                 some ("System configuration error: Identity column "
                                   ++ identity_column ++ " not found") }, effs)
                    else
                      (.next { valid := true, user_identifier := some (r.get identity_column) },
                       effs)
        | .JWT =>
          match bearerToken req with
          | none => (.next { valid := false, message := some "JWT token required" }, effs)
          | some tok =>
            if tok = "" then
              (.next { valid := false, message := some "JWT token required" }, effs)
            else
              let effs := effs ++ [AuthEffect.jwtVerify tok]
              match env.jwtVerify tok with
              | some sub =>
                (.next { valid := true, user_identifier := some (.str sub) }, effs)
              | none =>
                (.next { valid := false, message := some "JWT Authentication Failed" }, effs)

/-- The `for (const auth of authentications)` loop: threads the running
result `acc` (`auth_passed`), skipping the body once `acc.valid` holds, and
stopping the whole traversal on a `halt`. -/
def authLoop (env : AuthEnv) (req : AuthReq) :
    AuthRestrictionsResponse → List Auth → AuthRestrictionsResponse × List AuthEffect
  | acc, [] => (acc, [])
  | acc, a :: rest =>
    if acc.valid then authLoop env req acc rest
    else
      match authStep env req a with
      | (.skip, eff) =>
        let (r2, eff2) := authLoop env req acc rest
        (r2, eff ++ eff2)
      | (.next r, eff) =>
        let (r2, eff2) := authLoop env req r rest
        (r2, eff ++ eff2)
      | (.halt r, eff) => (r, eff)

/-- `Authentication.auth`: trivially valid when no strategies are
configured, otherwise the rule loop starting from the `Unauthorized`
default. -/
def auth (env : AuthEnv) (req : AuthReq) : AuthRestrictionsResponse × List AuthEffect :=
  match env.authentications with
  | none => ({ valid := true }, [])
  | some auths =>
    authLoop env req { valid := false, message := some "Unauthorized" } auths

/-! ## The update-by-id controller (`PutController.updateById`) -/

/-- A request/response payload object, as a list of named JS values. -/
def JSObj : Type := List (String × JSVal)

instance : DecidableEq JSObj := inferInstanceAs (DecidableEq (List (String × JSVal)))

/-- The schema shape the controller uses: `getPrimaryKey(schema)` yields
`column | absent`. -/
structure DbSchema : Type where
  primary_key : Option String
  deriving DecidableEq, Repr

/-- Result of `schema.validateData`: `inst` models the `instance` field (the
coerced payload). -/
structure ValidateResponse : Type where
  valid : Bool
  message : String := ""
  inst : JSObj := []
  deriving DecidableEq

/-- `IsUniqueResponse`. -/
structure IsUniqueResponse : Type where
  valid : Bool
  message : String := ""
  deriving DecidableEq, Repr

/-- Result of `roles.tablePermission`: validity, failure message, and the
optional row-level restriction of a successful grant. -/
structure PermissionResponse : Type where
  valid : Bool
  message : String := ""
  restriction : Option DatabaseWhere := none
  deriving DecidableEq, Repr

/-- The Query Engine / helper operations the controller performs, in
order. -/
inductive PipelineOp : Type
  | getSchema
  | authCall
  | tablePermission
  | validateBody
  | validateKey
  | unique
  | findOne (wher : List DatabaseWhere)
  | update
  deriving DecidableEq, Repr

/-- HTTP-level outcome of `updateById`: an error status with its message
text, or the 200 response carrying the updated record. -/
inductive UpdateOutcome : Type
  | err (status : Nat) (msg : String)
  | ok (record : JSObj)
  deriving DecidableEq

/-- The environment of `updateById`: each pipeline collaborator as a pure
oracle, for the fixed request (table, id, body) under consideration. -/
structure UpdateEnv : Type where
  /-- `schema.getSchema({table, x_request_id})`; `Except.error` is a throw. -/
  getSchema : Except String DbSchema
  /-- `authentication.auth({req, x_request_id})`. -/
  authResult : AuthRestrictionsResponse
  /-- `roles.tablePermission` for the authenticated identifier. -/
  tablePermission : JSVal → PermissionResponse
  /-- `schema.validateData(schema, payload)`; called on the body and on the
  synthetic single-column primary-key payload. -/
  validateData : JSObj → ValidateResponse
  /-- `query.perform(UNIQUE, {schema, data, id})`. -/
  uniqueCheck : JSObj → String → IsUniqueResponse
  /-- `query.perform(FIND_ONE, {schema, where})`; `none` is a falsy result. -/
  findOne : List DatabaseWhere → Option JSObj
  /-- `query.perform(UPDATE, {id, schema, data})`; `Except.error` is a
  thrown storage failure. -/
  update : String → JSObj → Except String JSObj

/-- JavaScript `Array.prototype.concat`: returns a **new** array, leaving
the receiver unchanged. -/
def jsArrayConcat (a b : List DatabaseWhere) : List DatabaseWhere := a ++ b

/-- Lines 70-144 of the controller, after the role check: body validation,
primary-key discovery and validation, uniqueness check, the where-clause
construction (the source evaluates `where.concat(role_where)` without
assigning the result, so `where` is unchanged), the `FIND_ONE` existence
check, and the `UPDATE` mutation.  Returns the outcome together with the
operations this tail performs. -/
def afterRoleCheck (env : UpdateEnv) (schema : DbSchema) (table_name id : String)
    (body : JSObj) (role_where : List DatabaseWhere) : UpdateOutcome × List PipelineOp :=
  let validate := env.validateData body
  if !validate.valid then (.err 400 validate.message, [.validateBody])
  else
    match schema.primary_key with
    | none =>
      (.err 400 ("No primary key found for table " ++ table_name), [.validateBody])
    | some primary_key =>
      let validateKey := env.validateData [(primary_key, .str id)]
      if !validateKey.valid then
        (.err 400 validateKey.message, [.validateBody, .validateKey])
      else
        let uniqueValidation := env.uniqueCheck body id
        if !uniqueValidation.valid then
          (.err 400 uniqueValidation.message, [.validateBody, .validateKey, .unique])
        else
          let wher : List DatabaseWhere := [⟨primary_key, .equals, .str id⟩]
          -- `if (role_where.length > 0) { where.concat(role_where) }`:
          -- the concatenation is computed and discarded.
          let _ := if role_where.length > 0 then jsArrayConcat wher role_where else wher
          let record := env.findOne wher
          match record with
          | none =>
            (.err 400 ("Record with id " ++ id ++ " not found"),
             [.validateBody, .validateKey, .unique, .findOne wher])
          | some _ =>
            match env.update id validate.inst with
            | .ok updated =>
              (.ok updated,
               [.validateBody, .validateKey, .unique, .findOne wher, .update])
            | .error e =>
              (.err 400 e,
               [.validateBody, .validateKey, .unique, .findOne wher, .update])

/-- `PutController.updateById` (src/unnamed/part_000): schema resolution
(404 on failure), authentication (401 on failure), the role check guarded by
`if (auth.user_identifier)` (401 on a denied permission, the restriction of
a granted one pushed onto `role_where`), then the validation / uniqueness /
existence / mutation tail. -/
def updateById (env : UpdateEnv) (table_name id : String) (body : JSObj) :
    UpdateOutcome × List PipelineOp :=
  match env.getSchema with
  | .error e => (.err 404 e, [.getSchema])
  | .ok schema =>
    let auth := env.authResult
    if !auth.valid then
      (.err 401 (auth.message.getD ""), [.getSchema, .authCall])
    else
      if optTruthy auth.user_identifier then
        let permission := env.tablePermission (auth.user_identifier.getD .undef)
        if !permission.valid then
          (.err 401 permission.message, [.getSchema, .authCall, .tablePermission])
        else
          let role_where : List DatabaseWhere :=
            match permission.restriction with
            | some r => [r]
            | none => []
          let (out, tail) := afterRoleCheck env schema table_name id body role_where
          (out, [.getSchema, .authCall, .tablePermission] ++ tail)
      else
        let (out, tail) := afterRoleCheck env schema table_name id body []
        (out, [.getSchema, .authCall] ++ tail)

/-! ## Claim theorems -/

/-- C9: in the test environment an applicable API-key rule with a present
key records a passing result carrying no `user_identifier`, and its effect
list contains no `FIND` lookup: the key is never compared against any
stored record. -/
theorem C9_test_env_apikey_skips_lookup (env : AuthEnv) (req : AuthReq) (a : Auth)
    (sch : AuthSchema) (nm : String) (loc : AuthLocation)
    (htest : env.isTest = true)
    (htype : a.type = some AuthType.APIKEY)
    (happ : checkRequired env req AuthType.APIKEY = true)
    (hsch : env.getSchema a.table.name = Except.ok sch)
    (hname : a.name = some nm)
    (hloc : a.location = some loc)
    (hkey : jsTruthy (extractApiKey req loc nm) = true) :
    authStep env req a =
      (.next { valid := true, message := none, user_identifier := none },
       [.findManyRules AuthType.APIKEY, .getTableSchema a.table.name]) ∧
    ∀ fl wl, AuthEffect.find fl wl ∉
      ([.findManyRules AuthType.APIKEY, .getTableSchema a.table.name] : List AuthEffect) := by
  refine ⟨?_, by simp⟩
  unfold authStep
  rw [htype]
  simp [happ, hsch, hname, hloc, hkey, htest]

/-- The request used to witness C9. -/
def reqC9 : AuthReq :=
  { originalUrl := "/users/1"
    headers := fun n => if n = "x-api-key" then .str "k" else .undef
    query := fun _ => .undef
    body := fun _ => .undef }

/-- The configuration entry used to witness C9. -/
def authC9 : Auth :=
  { type := some .APIKEY
    name := some "x-api-key"
    location := some .HEADER
    table := { name := "users", identity_column := some "id", column := some "api_key" } }

/-- The environment used to witness C9: test mode, no routing rows. -/
def envC9 : AuthEnv :=
  { authentications := some [authC9]
    authRules := fun _ => []
    getSchema := fun n => if n = "users" then .ok ⟨"id"⟩ else .error "missing"
    isTest := true
    validateFields := fun _ => { valid := true }
    softDelete := none
    find := fun _ => none
    jwtVerify := fun _ => none }

/-- Witness for C9 at a concrete environment. -/
theorem C9_witness :
    authStep envC9 reqC9 authC9 =
      (.next { valid := true, message := none, user_identifier := none },
       [.findManyRules AuthType.APIKEY, .getTableSchema authC9.table.name]) ∧
    ∀ fl wl, AuthEffect.find fl wl ∉
      ([.findManyRules AuthType.APIKEY, .getTableSchema authC9.table.name] : List AuthEffect) :=
  C9_test_env_apikey_skips_lookup envC9 reqC9 authC9 ⟨"id"⟩ "x-api-key" AuthLocation.HEADER
    rfl rfl rfl rfl rfl rfl rfl

/-- C10: when the resolved schema has no primary-key column (and the
pipeline reaches the primary-key discovery), the request fails with a 400
naming the table, and no `UNIQUE`, `FIND_ONE` or `UPDATE` operation is
performed. -/
theorem C10_no_primary_key_400 (env : UpdateEnv) (sch : DbSchema)
    (table_name id : String) (body : JSObj)
    (hsch : env.getSchema = Except.ok sch)
    (hpk : sch.primary_key = none)
    (hauth : env.authResult.valid = true)
    (hperm : optTruthy env.authResult.user_identifier = true →
      (env.tablePermission (env.authResult.user_identifier.getD .undef)).valid = true)
    (hval : (env.validateData body).valid = true) :
    (updateById env table_name id body).1 =
      .err 400 ("No primary key found for table " ++ table_name) ∧
    PipelineOp.unique ∉ (updateById env table_name id body).2 ∧
    PipelineOp.update ∉ (updateById env table_name id body).2 ∧
    ∀ w, PipelineOp.findOne w ∉ (updateById env table_name id body).2 := by
  unfold updateById afterRoleCheck
  rw [hsch]
  by_cases hid : optTruthy env.authResult.user_identifier = true
  · simp [hauth, hid, hperm hid, hval, hpk]
  · simp [hauth, eq_false_of_ne_true hid, hval, hpk]

/-- The environment used to witness C10: valid auth with no identity, valid
body, schema without a primary key. -/
def envC10 : UpdateEnv :=
  { getSchema := .ok ⟨none⟩
    authResult := { valid := true }
    tablePermission := fun _ => { valid := true }
    validateData := fun p => { valid := true, inst := p }
    uniqueCheck := fun _ _ => { valid := true }
    findOne := fun _ => some []
    update := fun _ d => .ok d }

/-- Witness for C10 at a concrete environment. -/
theorem C10_witness :
    (updateById envC10 "users" "42" []).1 =
      .err 400 ("No primary key found for table " ++ "users") ∧
    PipelineOp.unique ∉ (updateById envC10 "users" "42" []).2 ∧
    PipelineOp.update ∉ (updateById envC10 "users" "42" []).2 ∧
    ∀ w, PipelineOp.findOne w ∉ (updateById envC10 "users" "42" []).2 :=
  C10_no_primary_key_400 envC10 ⟨none⟩ "users" "42" [] rfl rfl rfl (fun _ => rfl) rfl

/-- Helper for C4: if the tail of the pipeline performed a `FIND_ONE` whose
where-clauses the engine answers with no record, the tail's outcome is the
record-not-found 400 and it performed no `UPDATE`. -/
lemma afterRoleCheck_findOne_none (env : UpdateEnv) (sch : DbSchema)
    (table_name id : String) (body : JSObj) (role_where : List DatabaseWhere)
    (w : List DatabaseWhere)
    (hmem : PipelineOp.findOne w ∈ (afterRoleCheck env sch table_name id body role_where).2)
    (hnone : env.findOne w = none) :
    (afterRoleCheck env sch table_name id body role_where).1 =
      .err 400 ("Record with id " ++ id ++ " not found") ∧
    PipelineOp.update ∉ (afterRoleCheck env sch table_name id body role_where).2 := by
  by_cases h1 : (env.validateData body).valid = true
  · cases hpk : sch.primary_key with
    | none => simp [afterRoleCheck, h1, hpk] at hmem
    | some pk =>
      by_cases h2 : (env.validateData [(pk, JSVal.str id)]).valid = true
      · by_cases h3 : (env.uniqueCheck body id).valid = true
        · cases hf : env.findOne [⟨pk, .equals, .str id⟩] with
          | none =>
            simp [afterRoleCheck, h1, hpk, h2, h3, hf]
          | some r =>
            cases hu : env.update id (env.validateData body).inst with
            | ok updated =>
              simp [afterRoleCheck, h1, hpk, h2, h3, hf, hu] at hmem
              rw [hmem] at hnone
              rw [hnone] at hf
              cases hf
            | error e =>
              simp [afterRoleCheck, h1, hpk, h2, h3, hf, hu] at hmem
              rw [hmem] at hnone
              rw [hnone] at hf
              cases hf
        · simp [afterRoleCheck, h1, hpk, h2, h3] at hmem
      · simp [afterRoleCheck, h1, hpk, h2] at hmem
  · simp [afterRoleCheck, h1] at hmem

/-- C4: when the existence check (`FIND_ONE` on the constructed
where-clauses) is performed and returns no record, `updateById` ends with
the record-not-found 400 client error and never submits the `UPDATE`
mutation. -/
theorem C4_no_record_no_update (env : UpdateEnv) (table_name id : String) (body : JSObj)
    (w : List DatabaseWhere)
    (hmem : PipelineOp.findOne w ∈ (updateById env table_name id body).2)
    (hnone : env.findOne w = none) :
    (updateById env table_name id body).1 =
      .err 400 ("Record with id " ++ id ++ " not found") ∧
    PipelineOp.update ∉ (updateById env table_name id body).2 := by
  unfold updateById at hmem ⊢
  cases hs : env.getSchema with
  | error e => rw [hs] at hmem; simp at hmem
  | ok sch =>
    rw [hs] at hmem
    by_cases ha : env.authResult.valid = true
    · by_cases hid : optTruthy env.authResult.user_identifier = true
      · by_cases hp :
          (env.tablePermission (env.authResult.user_identifier.getD .undef)).valid = true
        · simp only [ha, hid, hp, Bool.not_true, Bool.false_eq_true, if_false, if_true] at hmem ⊢
          simp at hmem ⊢
          have := afterRoleCheck_findOne_none env sch table_name id body
            (match (env.tablePermission (env.authResult.user_identifier.getD .undef)).restriction
             with | some r => [r] | none => []) w hmem hnone
          simpa using this
        · simp [ha, hid, hp] at hmem
      · simp only [ha, hid, Bool.not_true, Bool.false_eq_true, if_false, if_true] at hmem ⊢
        simp [hid] at hmem ⊢
        have := afterRoleCheck_findOne_none env sch table_name id body [] w hmem hnone
        simpa using this
    · simp [ha] at hmem

/-- The environment used to witness C4: all stages pass until the existence
check, which finds no record. -/
def envC4 : UpdateEnv :=
  { getSchema := .ok ⟨some "id"⟩
    authResult := { valid := true }
    tablePermission := fun _ => { valid := true }
    validateData := fun p => { valid := true, inst := p }
    uniqueCheck := fun _ _ => { valid := true }
    findOne := fun _ => none
    update := fun _ d => .ok d }

/-- Witness for C4 at a concrete environment. -/
theorem C4_witness :
    (updateById envC4 "users" "42" []).1 =
      .err 400 ("Record with id " ++ "42" ++ " not found") ∧
    PipelineOp.update ∉ (updateById envC4 "users" "42" []).2 :=
  C4_no_record_no_update envC4 "users" "42" []
    [⟨"id", .equals, .str "42"⟩] (by decide) rfl

/-- Unfolding equation for one iteration of the rule loop. -/
lemma authLoop_cons (env : AuthEnv) (req : AuthReq) (acc : AuthRestrictionsResponse)
    (a : Auth) (rest : List Auth) :
    authLoop env req acc (a :: rest) =
      if acc.valid then authLoop env req acc rest
      else
        match authStep env req a with
        | (.skip, eff) =>
          ((authLoop env req acc rest).1, eff ++ (authLoop env req acc rest).2)
        | (.next r, eff) =>
          ((authLoop env req r rest).1, eff ++ (authLoop env req r rest).2)
        | (.halt r, eff) => (r, eff) := by
  cases h : authStep env req a with
  | mk s eff => cases s <;> simp [authLoop, h]

/-- A loop started on an already-valid running result touches no rule: the
result is unchanged and no side effect is performed. -/
lemma authLoop_of_valid (env : AuthEnv) (req : AuthReq) (l : List Auth)
    (acc : AuthRestrictionsResponse) (h : acc.valid = true) :
    authLoop env req acc l = (acc, []) := by
  induction l with
  | nil => rfl
  | cons a rest ih => simp [authLoop, h, ih]

/-- Once a prefix of the rule list has produced a valid running result, the
remaining rules change neither the result nor the effect trace. -/
lemma authLoop_append_of_valid (env : AuthEnv) (req : AuthReq) (l1 l2 : List Auth)
    (acc : AuthRestrictionsResponse)
    (h : (authLoop env req acc l1).1.valid = true) :
    authLoop env req acc (l1 ++ l2) = authLoop env req acc l1 := by
  induction l1 generalizing acc with
  | nil =>
    simp only [authLoop] at h
    simpa using authLoop_of_valid env req l2 acc h
  | cons a rest ih =>
    rw [List.cons_append, authLoop_cons env req acc a (rest ++ l2),
        authLoop_cons env req acc a rest]
    rw [authLoop_cons env req acc a rest] at h
    by_cases hv : acc.valid = true
    · rw [if_pos hv] at h
      rw [if_pos hv, if_pos hv]
      exact ih acc h
    · rw [if_neg hv] at h
      rw [if_neg hv, if_neg hv]
      cases hstep : authStep env req a with
      | mk s eff =>
        rw [hstep] at h
        cases s with
        | skip =>
          have h' : (authLoop env req acc rest).1.valid = true := by simpa using h
          simp only [ih acc h']
        | next r =>
          have h' : (authLoop env req r rest).1.valid = true := by simpa using h
          simp only [ih r h']
        | halt r => rfl

/-- C5: once an earlier rule yields a passing (valid) running result, the
whole engine's output — result and observable effect trace alike — is that
of the passing prefix: no later rule is evaluated and the side effects of
later rules are absent. -/
theorem C5_short_circuit_after_pass (env : AuthEnv) (req : AuthReq) (l1 l2 : List Auth)
    (henv : env.authentications = some (l1 ++ l2))
    (h : (authLoop env req ⟨false, some "Unauthorized", none⟩ l1).1.valid = true) :
    auth env req = authLoop env req ⟨false, some "Unauthorized", none⟩ l1 := by
  unfold auth
  rw [henv]
  exact authLoop_append_of_valid env req l1 l2 _ h

/-- The request used to witness C5 and C7: carries the API key header. -/
def reqC5 : AuthReq :=
  { originalUrl := "/users/1"
    headers := fun n => if n = "x-api-key" then .str "k" else .undef
    query := fun _ => .undef
    body := fun _ => .undef }

/-- First rule for the C5 witness: an API-key rule that passes (test
environment). -/
def authC5a : Auth :=
  { type := some .APIKEY
    name := some "x-api-key"
    location := some .HEADER
    table := { name := "users", identity_column := some "id", column := some "api_key" } }

/-- Second rule for the C5 witness: a JWT rule that would fail. -/
def authC5b : Auth :=
  { type := some .JWT, table := { name := "users" } }

/-- The environment used to witness C5. -/
def envC5 : AuthEnv :=
  { authentications := some ([authC5a] ++ [authC5b])
    authRules := fun _ => []
    getSchema := fun n => if n = "users" then .ok ⟨"id"⟩ else .error "missing"
    isTest := true
    validateFields := fun _ => { valid := true }
    softDelete := none
    find := fun _ => none
    jwtVerify := fun _ => none }

/-- Witness for C5 at a concrete environment. -/
theorem C5_witness :
    auth envC5 reqC5 = authLoop envC5 reqC5 ⟨false, some "Unauthorized", none⟩ [authC5a] :=
  C5_short_circuit_after_pass envC5 reqC5 [authC5a] [authC5b] rfl (by decide)

/-- C6: an applicable API-key rule whose lookup finds no matching record
makes the whole `auth` invocation return immediately with
`Unauthorized`, regardless of the remaining rules. -/
theorem C6_apikey_mismatch_fatal (env : AuthEnv) (req : AuthReq)
    (acc : AuthRestrictionsResponse) (a : Auth) (rest : List Auth)
    (sch : AuthSchema) (nm : String) (loc : AuthLocation) (col : String)
    (hacc : acc.valid = false)
    (htype : a.type = some AuthType.APIKEY)
    (happ : checkRequired env req AuthType.APIKEY = true)
    (hsch : env.getSchema a.table.name = Except.ok sch)
    (hname : a.name = some nm)
    (hloc : a.location = some loc)
    (hkey : jsTruthy (extractApiKey req loc nm) = true)
    (htest : env.isTest = false)
    (htbl : ¬ a.table.name = "")
    (hcol : a.table.column = some col)
    (hfind : env.find
      (apiKeyFindOptions env a (identityColumn a sch) col (extractApiKey req loc nm)) = none) :
    authLoop env req acc (a :: rest) =
      ({ valid := false, message := some "Unauthorized" },
       [.findManyRules AuthType.APIKEY, .getTableSchema a.table.name,
        .find (apiKeyFindOptions env a (identityColumn a sch) col
                (extractApiKey req loc nm)).fields
              (apiKeyFindOptions env a (identityColumn a sch) col
                (extractApiKey req loc nm)).wher]) := by
  rw [authLoop_cons, if_neg (by simp [hacc])]
  have hstep : authStep env req a =
      (.halt { valid := false, message := some "Unauthorized" },
       [.findManyRules AuthType.APIKEY, .getTableSchema a.table.name,
        .find (apiKeyFindOptions env a (identityColumn a sch) col
                (extractApiKey req loc nm)).fields
              (apiKeyFindOptions env a (identityColumn a sch) col
                (extractApiKey req loc nm)).wher]) := by
    unfold authStep
    rw [htype]
    simp [happ, hsch, hname, hloc, hkey, htest, htbl, hcol, hfind]
  rw [hstep]

/-- The request used to witness C6: carries a key the lookup will miss. -/
def reqC6 : AuthReq :=
  { originalUrl := "/users/1"
    headers := fun n => if n = "x-api-key" then .str "wrong" else .undef
    query := fun _ => .undef
    body := fun _ => .undef }

/-- The API-key rule used to witness C6. -/
def authC6 : Auth :=
  { type := some .APIKEY
    name := some "x-api-key"
    location := some .HEADER
    table := { name := "users", identity_column := some "id", column := some "api_key" } }

/-- A JWT rule placed after the failing API-key rule in the C6 witness; the
short-circuit makes it unreachable. -/
def authC6b : Auth :=
  { type := some .JWT, table := { name := "users" } }

/-- The environment used to witness C6: production mode, lookup misses. -/
def envC6 : AuthEnv :=
  { authentications := some [authC6, authC6b]
    authRules := fun _ => []
    getSchema := fun n => if n = "users" then .ok ⟨"id"⟩ else .error "missing"
    isTest := false
    validateFields := fun _ => { valid := true }
    softDelete := none
    find := fun _ => none
    jwtVerify := fun _ => none }

/-- Witness for C6 at a concrete environment. -/
theorem C6_witness :
    authLoop envC6 reqC6 ⟨false, some "Unauthorized", none⟩ (authC6 :: [authC6b]) =
      ({ valid := false, message := some "Unauthorized" },
       [.findManyRules AuthType.APIKEY, .getTableSchema authC6.table.name,
        .find (apiKeyFindOptions envC6 authC6 (identityColumn authC6 ⟨"id"⟩) "api_key"
                (extractApiKey reqC6 AuthLocation.HEADER "x-api-key")).fields
              (apiKeyFindOptions envC6 authC6 (identityColumn authC6 ⟨"id"⟩) "api_key"
                (extractApiKey reqC6 AuthLocation.HEADER "x-api-key")).wher]) :=
  C6_apikey_mismatch_fatal envC6 reqC6 ⟨false, some "Unauthorized", none⟩ authC6 [authC6b]
    ⟨"id"⟩ "x-api-key" AuthLocation.HEADER "api_key"
    rfl rfl rfl rfl rfl rfl rfl rfl (by decide) rfl rfl

/-- C7: an applicable JWT rule with an absent bearer token records a failed
"JWT token required" result, and one whose verification fails records a
failed "JWT Authentication Failed" result; in both cases the loop continues
with the remaining rules (the step is a `next`, the remaining rules'
evaluation is appended), so a later passing rule still yields a passing
final result. -/
theorem C7_jwt_fail_continues (env : AuthEnv) (req : AuthReq)
    (acc : AuthRestrictionsResponse) (a : Auth) (rest : List Auth) (sch : AuthSchema)
    (hacc : acc.valid = false)
    (htype : a.type = some AuthType.JWT)
    (happ : checkRequired env req AuthType.JWT = true)
    (hsch : env.getSchema a.table.name = Except.ok sch)
    (hfail : ∀ tok, bearerToken req = some tok → tok ≠ "" → env.jwtVerify tok = none) :
    ∃ r eff, authStep env req a = (.next r, eff) ∧ r.valid = false ∧
      (r.message = some "JWT token required" ∨ r.message = some "JWT Authentication Failed") ∧
      authLoop env req acc (a :: rest) =
        ((authLoop env req r rest).1, eff ++ (authLoop env req r rest).2) ∧
      ((authLoop env req r rest).1.valid = true →
        (authLoop env req acc (a :: rest)).1.valid = true) := by
  have main : ∃ r eff, authStep env req a = (.next r, eff) ∧ r.valid = false ∧
      (r.message = some "JWT token required" ∨
       r.message = some "JWT Authentication Failed") := by
    cases hb : bearerToken req with
    | none =>
      exact ⟨⟨false, some "JWT token required", none⟩,
        [.findManyRules AuthType.JWT, .getTableSchema a.table.name],
        by unfold authStep; rw [htype]; simp [happ, hsch, hb], rfl, Or.inl rfl⟩
    | some tok =>
      by_cases ht : tok = ""
      · exact ⟨⟨false, some "JWT token required", none⟩,
          [.findManyRules AuthType.JWT, .getTableSchema a.table.name],
          by unfold authStep; rw [htype]; simp [happ, hsch, hb, ht], rfl, Or.inl rfl⟩
      · exact ⟨⟨false, some "JWT Authentication Failed", none⟩,
          [.findManyRules AuthType.JWT, .getTableSchema a.table.name, .jwtVerify tok],
          by unfold authStep; rw [htype]; simp [happ, hsch, hb, ht, hfail tok hb ht],
          rfl, Or.inr rfl⟩
  obtain ⟨r, eff, hstep, hrv, hmsg⟩ := main
  have hloop : authLoop env req acc (a :: rest) =
      ((authLoop env req r rest).1, eff ++ (authLoop env req r rest).2) := by
    rw [authLoop_cons, if_neg (by simp [hacc]), hstep]
  exact ⟨r, eff, hstep, hrv, hmsg, hloop, fun hv => by rw [hloop]; exact hv⟩

/-- The request used to witness C7: a bearer token that fails verification,
plus the API key a later rule accepts. -/
def reqC7 : AuthReq :=
  { originalUrl := "/users/1"
    headers := fun n =>
      if n = "authorization" then .str "Bearer tampered"
      else if n = "x-api-key" then .str "k" else .undef
    query := fun _ => .undef
    body := fun _ => .undef }

/-- The JWT rule used to witness C7. -/
def authC7a : Auth :=
  { type := some .JWT, table := { name := "users" } }

/-- The later API-key rule of the C7 witness (passes in the test
environment). -/
def authC7b : Auth :=
  { type := some .APIKEY
    name := some "x-api-key"
    location := some .HEADER
    table := { name := "users", identity_column := some "id", column := some "api_key" } }

/-- The environment used to witness C7: every token fails verification. -/
def envC7 : AuthEnv :=
  { authentications := some [authC7a, authC7b]
    authRules := fun _ => []
    getSchema := fun n => if n = "users" then .ok ⟨"id"⟩ else .error "missing"
    isTest := true
    validateFields := fun _ => { valid := true }
    softDelete := none
    find := fun _ => none
    jwtVerify := fun _ => none }

/-- Witness for C7 at a concrete environment. -/
theorem C7_witness :
    ∃ r eff, authStep envC7 reqC7 authC7a = (.next r, eff) ∧ r.valid = false ∧
      (r.message = some "JWT token required" ∨ r.message = some "JWT Authentication Failed") ∧
      authLoop envC7 reqC7 ⟨false, some "Unauthorized", none⟩ (authC7a :: [authC7b]) =
        ((authLoop envC7 reqC7 r [authC7b]).1, eff ++ (authLoop envC7 reqC7 r [authC7b]).2) ∧
      ((authLoop envC7 reqC7 r [authC7b]).1.valid = true →
        (authLoop envC7 reqC7 ⟨false, some "Unauthorized", none⟩
          (authC7a :: [authC7b])).1.valid = true) :=
  C7_jwt_fail_continues envC7 reqC7 ⟨false, some "Unauthorized", none⟩ authC7a [authC7b]
    ⟨"id"⟩ rfl rfl rfl rfl (fun _ _ _ => rfl)

/-- The row-level restriction returned by the role authorizer in the C1
counterexample run. -/
def restrictionC1 : DatabaseWhere := ⟨"org_id", .equals, .str "7"⟩

/-- The environment of the C1 counterexample run: authentication passes
with an identity, `tablePermission` grants access **with** the row-level
restriction `restrictionC1`, and every later stage succeeds. -/
def envC1 : UpdateEnv :=
  { getSchema := .ok ⟨some "id"⟩
    authResult := { valid := true, user_identifier := some (.str "u1") }
    tablePermission := fun _ => { valid := true, restriction := some restrictionC1 }
    validateData := fun p => { valid := true, inst := p }
    uniqueCheck := fun _ _ => { valid := true }
    findOne := fun _ => some []
    update := fun _ d => .ok d }

/-- C1 (counterexample): in this run `tablePermission` returns a valid
result carrying the restriction `restrictionC1`, yet the where-clause list
passed to the existence check is exactly the primary-key equality filter
and the restriction is **not** in it — `where.concat(role_where)` in the
source builds a new array that is never assigned, so the merged list is
dropped.  This refutes the claim that the restriction appears alongside the
primary-key filter. -/
theorem C1_restriction_dropped :
    (envC1.tablePermission (.str "u1")).restriction = some restrictionC1 ∧
    (updateById envC1 "users" "42" []).2 =
      [.getSchema, .authCall, .tablePermission, .validateBody, .validateKey, .unique,
       .findOne [⟨"id", .equals, .str "42"⟩], .update] ∧
    restrictionC1 ∉ [DatabaseWhere.mk "id" .equals (.str "42")] :=
  ⟨rfl, by decide, by decide⟩

/-- The request of the C2 counterexample run: supplies the API key
`"secret"` in the configured header. -/
def reqC2 : AuthReq :=
  { originalUrl := "/users/1"
    headers := fun n => if n = "x-api-key" then .str "secret" else .undef
    query := fun _ => .undef
    body := fun _ => .undef }

/-- The row the API-key lookup fetches in the C2 counterexample run: its
matching column `api_key` holds exactly the supplied key `"secret"` under
both direct access and dotted-path resolution. -/
def recC2 : DbRecord :=
  { get := fun c =>
      if c = "api_key" then .str "secret" else if c = "id" then .str "7" else .undef
    dot := fun c => if c = "api_key" then .str "secret" else .undef }

/-- The API-key rule of the C2 counterexample run. -/
def authC2 : Auth :=
  { type := some .APIKEY
    name := some "x-api-key"
    location := some .HEADER
    table := { name := "users", identity_column := some "id", column := some "api_key" } }

/-- The environment of the C2 counterexample run (production mode; the
lookup returns `recC2`). -/
def envC2 : AuthEnv :=
  { authentications := some [authC2]
    authRules := fun _ => []
    getSchema := fun n => if n = "users" then .ok ⟨"id"⟩ else .error "missing"
    isTest := false
    validateFields := fun _ => { valid := true }
    softDelete := none
    find := fun _ => some recC2
    jwtVerify := fun _ => none }

/-- C2 (counterexample): the fetched row's matching column is exactly equal
to the supplied key, yet `auth` yields `Unauthorized` — the source's
condition `(!result[column] && findDotNotation(result, column)) !==
req_api_key` evaluates its parenthesised left side to the boolean `false`
whenever `result[column]` is truthy, and `false !== "secret"` holds, so the
exact-match row is rejected.  This refutes "authentication passes exactly
when the fetched record's matching column equals the supplied key". -/
theorem C2_exact_match_rejected :
    recC2.get "api_key" = .str "secret" ∧
    recC2.dot "api_key" = .str "secret" ∧
    extractApiKey reqC2 AuthLocation.HEADER "x-api-key" = .str "secret" ∧
    (auth envC2 reqC2).1 = { valid := false, message := some "Unauthorized" } :=
  ⟨by decide, by decide, by decide, by decide⟩

/-- The request of the C3 counterexample run: the route contains the
excluded table name `users`. -/
def reqC3 : AuthReq :=
  { originalUrl := "/users/1"
    headers := fun _ => .undef
    query := fun _ => .undef
    body := fun _ => .undef }

/-- The JWT rule of the C3 counterexample run. -/
def authC3 : Auth := { type := some .JWT, table := { name := "auth_users" } }

/-- The environment of the C3 counterexample run: the routing table holds a
single **exclude** row for table `users` (and no include row at all). -/
def envC3 : AuthEnv :=
  { authentications := some [authC3]
    authRules := fun _ => [⟨"users", true⟩]
    getSchema := fun n => if n = "auth_users" then .ok ⟨"id"⟩ else .error "missing"
    isTest := false
    validateFields := fun _ => { valid := true }
    softDelete := none
    find := fun _ => none
    jwtVerify := fun _ => none }

/-- C3 (counterexample): every routing row for the rule is an exclude row
matching the current route, there is no include row, and yet the rule is
enforced — `checkRequired` comes back `true` because the source builds the
`includes` list with the same `rule.exclude` filter as the `excludes` list,
so each matching exclude row immediately re-includes itself.  The enforced
rule updates the running result (to "JWT token required") and performs its
schema lookup, refuting "a rule whose exclude list matches the route is
skipped without affecting the running result". -/
theorem C3_exclude_not_skipped :
    envC3.authRules AuthType.JWT = [⟨"users", true⟩] ∧
    strIncludes reqC3.originalUrl "users" = true ∧
    checkRequired envC3 reqC3 AuthType.JWT = true ∧
    auth envC3 reqC3 =
      ({ valid := false, message := some "JWT token required" },
       [.findManyRules AuthType.JWT, .getTableSchema "auth_users"]) :=
  ⟨rfl, by decide, by decide, by decide⟩

/-- Index of a pipeline operation in the spec's stage order: schema
resolution, authentication, role authorization, data validation (body then
key), uniqueness check, existence check, mutation. -/
def stageIdx : PipelineOp → Nat
  | .getSchema => 0
  | .authCall => 1
  | .tablePermission => 2
  | .validateBody => 3
  | .validateKey => 4
  | .unique => 5
  | .findOne _ => 6
  | .update => 7

/-- Whether the trace contains an existence check. -/
def hasFindOne (ops : List PipelineOp) : Bool :=
  ops.any fun o => match o with | .findOne _ => true | _ => false

/-- Success of the role-authorization stage: when an identity is present,
the permission check must have granted access (when no identity is present
the stage performs no check and cannot fail). -/
def roleOk (env : UpdateEnv) : Prop :=
  optTruthy env.authResult.user_identifier = true →
    (env.tablePermission (env.authResult.user_identifier.getD .undef)).valid = true

/-- Success of every stage up to and including authentication. -/
def upToAuth (env : UpdateEnv) : Prop :=
  (∃ sch, env.getSchema = Except.ok sch) ∧ env.authResult.valid = true

/-- Success of every stage up to and including role authorization. -/
def upToRole (env : UpdateEnv) : Prop :=
  upToAuth env ∧ roleOk env

/-- Success of every stage up to and including body validation. -/
def upToBody (env : UpdateEnv) (body : JSObj) : Prop :=
  upToRole env ∧ (env.validateData body).valid = true

/-- Success of every stage up to and including primary-key discovery and
key validation. -/
def upToKey (env : UpdateEnv) (id : String) (body : JSObj) : Prop :=
  upToBody env body ∧
  ∃ sch pk, env.getSchema = Except.ok sch ∧ sch.primary_key = some pk ∧
    (env.validateData [(pk, JSVal.str id)]).valid = true

/-- Success of every stage up to and including the uniqueness check. -/
def upToUnique (env : UpdateEnv) (id : String) (body : JSObj) : Prop :=
  upToKey env id body ∧ (env.uniqueCheck body id).valid = true

/-- Stage-order and gating facts about the pipeline tail after the role
check. -/
lemma afterRoleCheck_props (env : UpdateEnv) (sch : DbSchema) (t i : String) (b : JSObj)
    (rw : List DatabaseWhere) :
    (∀ o ∈ (afterRoleCheck env sch t i b rw).2, 3 ≤ stageIdx o) ∧
    (afterRoleCheck env sch t i b rw).2.head? = some .validateBody ∧
    List.Chain' (fun x y => stageIdx x < stageIdx y) (afterRoleCheck env sch t i b rw).2 ∧
    (PipelineOp.validateKey ∈ (afterRoleCheck env sch t i b rw).2 →
      (env.validateData b).valid = true ∧ ∃ pk, sch.primary_key = some pk) ∧
    (PipelineOp.unique ∈ (afterRoleCheck env sch t i b rw).2 →
      PipelineOp.validateKey ∈ (afterRoleCheck env sch t i b rw).2 ∧
      (env.validateData b).valid = true ∧
      ∃ pk, sch.primary_key = some pk ∧
        (env.validateData [(pk, JSVal.str i)]).valid = true) ∧
    (∀ w, PipelineOp.findOne w ∈ (afterRoleCheck env sch t i b rw).2 →
      PipelineOp.unique ∈ (afterRoleCheck env sch t i b rw).2 ∧
      PipelineOp.validateKey ∈ (afterRoleCheck env sch t i b rw).2 ∧
      (env.validateData b).valid = true ∧
      (env.uniqueCheck b i).valid = true ∧
      ∃ pk, sch.primary_key = some pk ∧
        (env.validateData [(pk, JSVal.str i)]).valid = true) ∧
    (PipelineOp.update ∈ (afterRoleCheck env sch t i b rw).2 →
      hasFindOne (afterRoleCheck env sch t i b rw).2 = true ∧
      (env.validateData b).valid = true ∧
      (env.uniqueCheck b i).valid = true ∧
      (∃ pk, sch.primary_key = some pk ∧
        (env.validateData [(pk, JSVal.str i)]).valid = true) ∧
      ∀ w, PipelineOp.findOne w ∈ (afterRoleCheck env sch t i b rw).2 →
        env.findOne w ≠ none) := by
  by_cases h1 : (env.validateData b).valid = true
  · cases hpk : sch.primary_key with
    | none => simp [afterRoleCheck, h1, hpk, stageIdx, hasFindOne]
    | some pk =>
      by_cases h2 : (env.validateData [(pk, JSVal.str i)]).valid = true
      · by_cases h3 : (env.uniqueCheck b i).valid = true
        · cases hf : env.findOne [⟨pk, .equals, .str i⟩] with
          | none =>
            simp [afterRoleCheck, h1, hpk, h2, h3, hf, stageIdx, hasFindOne]
          | some r =>
            cases hu : env.update i (env.validateData b).inst with
            | ok updated =>
              simp [afterRoleCheck, h1, hpk, h2, h3, hf, hu, stageIdx, hasFindOne]
            | error e =>
              simp [afterRoleCheck, h1, hpk, h2, h3, hf, hu, stageIdx, hasFindOne]
        · simp [afterRoleCheck, h1, hpk, h2, h3, stageIdx, hasFindOne]
      · simp [afterRoleCheck, h1, hpk, h2, stageIdx, hasFindOne]
  · simp [afterRoleCheck, h1, stageIdx, hasFindOne]

/-- C8: the pipeline's operations occur in the stage order (schema
resolution, authentication, role authorization, data validation,
uniqueness check, existence check, mutation) — the trace is strictly
ascending in `stageIdx` — and a later stage's operation is only ever
performed when **every** earlier stage succeeded (schema resolved, auth
valid, role authorization granted, body and key validation passed,
uniqueness passed, existence check non-empty), so a failing stage
terminates the pipeline and no later stage's operation is performed. -/
theorem C8_stage_order (env : UpdateEnv) (table_name id : String) (body : JSObj) :
    List.Chain' (fun x y => stageIdx x < stageIdx y) (updateById env table_name id body).2 ∧
    (PipelineOp.authCall ∈ (updateById env table_name id body).2 →
      ∃ sch, env.getSchema = Except.ok sch) ∧
    (PipelineOp.tablePermission ∈ (updateById env table_name id body).2 → upToAuth env) ∧
    (PipelineOp.validateBody ∈ (updateById env table_name id body).2 → upToRole env) ∧
    (PipelineOp.validateKey ∈ (updateById env table_name id body).2 →
      upToBody env body ∧
      ∃ sch pk, env.getSchema = Except.ok sch ∧ sch.primary_key = some pk) ∧
    (PipelineOp.unique ∈ (updateById env table_name id body).2 →
      upToKey env id body ∧
      PipelineOp.validateKey ∈ (updateById env table_name id body).2) ∧
    (∀ w, PipelineOp.findOne w ∈ (updateById env table_name id body).2 →
      upToUnique env id body ∧
      PipelineOp.unique ∈ (updateById env table_name id body).2) ∧
    (PipelineOp.update ∈ (updateById env table_name id body).2 →
      upToUnique env id body ∧
      hasFindOne (updateById env table_name id body).2 = true ∧
      ∀ w, PipelineOp.findOne w ∈ (updateById env table_name id body).2 →
        env.findOne w ≠ none) := by
  cases hs : env.getSchema with
  | error e => simp [updateById, hs, stageIdx, hasFindOne]
  | ok sch =>
    by_cases ha : env.authResult.valid = true
    · by_cases hid : optTruthy env.authResult.user_identifier = true
      · by_cases hp :
          (env.tablePermission (env.authResult.user_identifier.getD .undef)).valid = true
        · have hrole : roleOk env := fun _ => hp
          have hupr : upToRole env := ⟨⟨⟨sch, hs⟩, ha⟩, hrole⟩
          have hops : (updateById env table_name id body).2 =
              [.getSchema, .authCall, .tablePermission] ++
                (afterRoleCheck env sch table_name id body
                  (match (env.tablePermission
                      (env.authResult.user_identifier.getD .undef)).restriction with
                   | some r => [r]
                   | none => [])).2 := by
            simp [updateById, hs, ha, hid, hp]
          obtain ⟨hmin, hhead, hchain, hvk, huq, hfo, hup⟩ :=
            afterRoleCheck_props env sch table_name id body
              (match (env.tablePermission
                  (env.authResult.user_identifier.getD .undef)).restriction with
               | some r => [r]
               | none => [])
          rw [hops]
          refine ⟨?_, ?_, ?_, ?_, ?_, ?_, ?_, ?_⟩
          · rw [List.chain'_append]
            refine ⟨by simp [stageIdx], hchain, ?_⟩
            intro x hx y hy
            simp at hx
            rw [hhead] at hy
            simp at hy
            subst hx; subst hy
            simp [stageIdx]
          · intro _; exact ⟨sch, rfl⟩
          · intro _; exact hupr.1
          · intro _; exact hupr
          · intro hm
            simp at hm
            obtain ⟨hbv, pk, hpk⟩ := hvk hm
            exact ⟨⟨hupr, hbv⟩, sch, pk, rfl, hpk⟩
          · intro hm
            simp at hm
            obtain ⟨hvkmem, hbv, pk, hpk, hkv⟩ := huq hm
            exact ⟨⟨⟨hupr, hbv⟩, sch, pk, hs, hpk, hkv⟩, by simp [hvkmem]⟩
          · intro w hm
            simp at hm
            obtain ⟨huqmem, _, hbv, huqv, pk, hpk, hkv⟩ := hfo w hm
            exact ⟨⟨⟨⟨hupr, hbv⟩, sch, pk, hs, hpk, hkv⟩, huqv⟩, by simp [huqmem]⟩
          · intro hm
            simp at hm
            obtain ⟨hhas, hbv, huqv, ⟨pk, hpk, hkv⟩, hnone⟩ := hup hm
            refine ⟨⟨⟨⟨hupr, hbv⟩, sch, pk, hs, hpk, hkv⟩, huqv⟩, ?_, ?_⟩
            · simp [hasFindOne] at hhas ⊢
              tauto
            · intro w hw
              simp at hw
              exact hnone w hw
        · simp [updateById, hs, ha, hid, hp, stageIdx, hasFindOne, upToAuth]
      · have hrole : roleOk env := fun h => absurd h hid
        have hupr : upToRole env := ⟨⟨⟨sch, hs⟩, ha⟩, hrole⟩
        have hops : (updateById env table_name id body).2 =
            [.getSchema, .authCall] ++
              (afterRoleCheck env sch table_name id body []).2 := by
          simp [updateById, hs, ha, hid]
        obtain ⟨hmin, hhead, hchain, hvk, huq, hfo, hup⟩ :=
          afterRoleCheck_props env sch table_name id body []
        rw [hops]
        refine ⟨?_, ?_, ?_, ?_, ?_, ?_, ?_, ?_⟩
        · rw [List.chain'_append]
          refine ⟨by simp [stageIdx], hchain, ?_⟩
          intro x hx y hy
          simp at hx
          rw [hhead] at hy
          simp at hy
          subst hx; subst hy
          simp [stageIdx]
        · intro _; exact ⟨sch, rfl⟩
        · intro hm
          simp at hm
          exact absurd hm (by have := hmin .tablePermission; simp [stageIdx] at this; tauto)
        · intro _; exact hupr
        · intro hm
          simp at hm
          obtain ⟨hbv, pk, hpk⟩ := hvk hm
          exact ⟨⟨hupr, hbv⟩, sch, pk, rfl, hpk⟩
        · intro hm
          simp at hm
          obtain ⟨hvkmem, hbv, pk, hpk, hkv⟩ := huq hm
          exact ⟨⟨⟨hupr, hbv⟩, sch, pk, hs, hpk, hkv⟩, by simp [hvkmem]⟩
        · intro w hm
          simp at hm
          obtain ⟨huqmem, _, hbv, huqv, pk, hpk, hkv⟩ := hfo w hm
          exact ⟨⟨⟨⟨hupr, hbv⟩, sch, pk, hs, hpk, hkv⟩, huqv⟩, by simp [huqmem]⟩
        · intro hm
          simp at hm
          obtain ⟨hhas, hbv, huqv, ⟨pk, hpk, hkv⟩, hnone⟩ := hup hm
          refine ⟨⟨⟨⟨hupr, hbv⟩, sch, pk, hs, hpk, hkv⟩, huqv⟩, ?_, ?_⟩
          · simp [hasFindOne] at hhas ⊢
            tauto
          · intro w hw
            simp at hw
            exact hnone w hw
    · simp [updateById, hs, ha, stageIdx, hasFindOne]

/-- The environment used to witness C8: every stage succeeds. -/
def envC8 : UpdateEnv :=
  { getSchema := .ok ⟨some "id"⟩
    authResult := { valid := true }
    tablePermission := fun _ => { valid := true }
    validateData := fun p => { valid := true, inst := p }
    uniqueCheck := fun _ _ => { valid := true }
    findOne := fun _ => some []
    update := fun _ d => .ok d }

/-- Witness for C8 at a concrete environment. -/
theorem C8_witness :
    List.Chain' (fun x y => stageIdx x < stageIdx y) (updateById envC8 "users" "42" []).2 ∧
    (PipelineOp.authCall ∈ (updateById envC8 "users" "42" []).2 →
      ∃ sch, envC8.getSchema = Except.ok sch) ∧
    (PipelineOp.tablePermission ∈ (updateById envC8 "users" "42" []).2 → upToAuth envC8) ∧
    (PipelineOp.validateBody ∈ (updateById envC8 "users" "42" []).2 → upToRole envC8) ∧
    (PipelineOp.validateKey ∈ (updateById envC8 "users" "42" []).2 →
      upToBody envC8 [] ∧
      ∃ sch pk, envC8.getSchema = Except.ok sch ∧ sch.primary_key = some pk) ∧
    (PipelineOp.unique ∈ (updateById envC8 "users" "42" []).2 →
      upToKey envC8 "42" [] ∧
      PipelineOp.validateKey ∈ (updateById envC8 "users" "42" []).2) ∧
    (∀ w, PipelineOp.findOne w ∈ (updateById envC8 "users" "42" []).2 →
      upToUnique envC8 "42" [] ∧
      PipelineOp.unique ∈ (updateById envC8 "users" "42" []).2) ∧
    (PipelineOp.update ∈ (updateById envC8 "users" "42" []).2 →
      upToUnique envC8 "42" [] ∧
      hasFindOne (updateById envC8 "users" "42" []).2 = true ∧
      ∀ w, PipelineOp.findOne w ∈ (updateById envC8 "users" "42" []).2 →
        envC8.findOne w ≠ none) :=
  C8_stage_order envC8 "users" "42" []

end Llana
